import Mathlib

/-!
# Verification of the chart-analysis pipeline (`src/backend/src/services/deepseek-services.js`)

Shallow embedding of the `DeepSeekService` class.  Conventions:

* JavaScript numbers are modelled as exact rationals (`ℚ`); the claims under
  consideration do not depend on binary floating-point pathologies.
* The JavaScript regular expressions of `parseOCRText` are modelled by a small
  backtracking regex engine (`RE`, `matchesRE`): character classes, sequencing,
  alternation (preferring the left branch), bounded greedy repetition `{lo,hi}`,
  and greedy Kleene star.  Preference order of the returned suffix list mirrors
  the JS backtracking order, so the head of the list is the JS match.
* External libraries (sharp, tesseract.js, axios, `JSON.parse`, `Date`) are
  modelled as oracle parameters bundled in environment structures; the code
  under verification is the control flow around them, translated clause by
  clause from the source.
* The prompt template string of `generateTradingPrompt` (a pure rendering with
  no claim about its text) is not reproduced; the AI transport oracle consumes
  the prompt's structured inputs instead.
-/

/-- JS whitespace class `\s` (ASCII part; the inputs at stake are ASCII). -/
def isJSSpace (c : Char) : Bool :=
  c = ' ' || c.toNat = 9 || c.toNat = 10 || c.toNat = 11 || c.toNat = 12 || c.toNat = 13

/-- Regular-expression abstract syntax for the patterns appearing in the source. -/
inductive RE where
  | eps
  | cls (p : Char → Bool)
  | seq (a b : RE)
  | alt (a b : RE)
  | rep (a : RE) (lo hi : Nat)
  | star (a : RE)

/-- Greedy bounded repetition: suffixes reachable by `lo` to `hi` iterations of
`f`, longest-consumption-first (the JS backtracking preference). -/
def matchRep (f : List Char → List (List Char)) : Nat → Nat → List Char → List (List Char)
  | lo, 0, s => if lo = 0 then [s] else []
  | lo, hi + 1, s =>
    (f s).flatMap (fun s' => matchRep f (lo - 1) hi s') ++ (if lo = 0 then [s] else [])

/-- All suffixes remaining after a match of `re` at the head of `s`, in JS
backtracking preference order (head = what the JS engine commits to).
`star` is realised as `{0, |s|}`: every starred body in the source consumes at
least one character per iteration, so `|s|` iterations are never exceeded. -/
def matchesRE : RE → List Char → List (List Char)
  | .eps, s => [s]
  | .cls p, s =>
    match s with
    | [] => []
    | c :: rest => if p c then [rest] else []
  | .seq a b, s => (matchesRE a s).flatMap (fun s' => matchesRE b s')
  | .alt a b, s => matchesRE a s ++ matchesRE b s
  | .rep a lo hi, s => matchRep (fun s' => matchesRE a s') lo hi s
  | .star a, s => matchRep (fun s' => matchesRE a s') 0 s.length s

/-- First success of `f` over `l` in order (backtracking search). -/
def firstSome (l : List α) (f : α → Option β) : Option β :=
  (l.filterMap f).head?

/-- Match `seq pre grp` at the head of `s`; on success return the text consumed
by `grp` (the JS capture group `match[1]`) and the suffix after the match. -/
def matchCapAt (pre grp : RE) (s : List Char) : Option (List Char × List Char) :=
  firstSome (matchesRE pre s) fun mid =>
    (matchesRE grp mid).head?.map fun suf => (mid.take (mid.length - suf.length), suf)

/-- Match `seq g1 (seq mid g2)` at the head of `s`; on success return the texts
consumed by `g1` and `g2` (JS `match[1]`, `match[2]`) and the suffix. -/
def matchCap2At (g1 mid g2 : RE) (s : List Char) : Option (List Char × List Char × List Char) :=
  firstSome (matchesRE g1 s) fun s1 =>
    firstSome (matchesRE mid s1) fun s2 =>
      (matchesRE g2 s2).head?.map fun suf =>
        (s.take (s.length - s1.length), s2.take (s2.length - suf.length), suf)

/-- `String.prototype.match` with the `g` flag: all matched substrings, scanning
left to right, resuming after each match.  Fuel is the string length; every
pattern in the source matches at least one character. -/
def globalMatchesAux (re : RE) : Nat → List Char → List (List Char)
  | 0, _ => []
  | _ + 1, [] => []
  | fuel + 1, s =>
    match (matchesRE re s).head? with
    | some suffix =>
      let len := s.length - suffix.length
      if len = 0 then globalMatchesAux re fuel s.tail
      else s.take len :: globalMatchesAux re fuel (s.drop len)
    | none => globalMatchesAux re fuel s.tail

def globalMatches (re : RE) (s : List Char) : List (List Char) :=
  globalMatchesAux re s.length s

/-- `String.prototype.replace` with the `g` flag and an empty replacement. -/
def globalReplaceAux (re : RE) : Nat → List Char → List Char
  | 0, s => s
  | _ + 1, [] => []
  | fuel + 1, s =>
    match (matchesRE re s).head? with
    | some suffix =>
      let len := s.length - suffix.length
      if len = 0 then s.head! :: globalReplaceAux re fuel s.tail
      else globalReplaceAux re fuel (s.drop len)
    | none => s.head! :: globalReplaceAux re fuel s.tail

def globalReplace (re : RE) (s : List Char) : List Char :=
  globalReplaceAux re s.length s

/-- Non-global `String.prototype.match`: scan positions left to right, return
the first capture (`match[1]`) of `seq pre grp`. -/
def scanCapAux (pre grp : RE) : Nat → List Char → Option (List Char)
  | 0, s => (matchCapAt pre grp s).map (·.1)
  | fuel + 1, s =>
    match matchCapAt pre grp s with
    | some (cap, _) => some cap
    | none =>
      match s with
      | [] => none
      | _ :: rest => scanCapAux pre grp fuel rest

def scanCap (pre grp : RE) (s : List Char) : Option (List Char) :=
  scanCapAux pre grp s.length s

/-- Case-insensitive single character (the `i` flag). -/
def ciCls (t : Char) : RE := .cls (fun c => c.toLower = t.toLower)

/-- Case-insensitive literal. -/
def litCI (s : String) : RE := s.toList.foldr (fun c r => .seq (ciCls c) r) .eps

def digitC : RE := .cls Char.isDigit

/-- The class `[.,]`. -/
def sepC : RE := .cls (fun c => c = '.' || c = ',')

/-- The class `[$€£¥]`. -/
def currencyC : RE := .cls (fun c => c = '$' || c = '€' || c = '£' || c = '¥')

/-- `x?` (greedy). -/
def optRE (a : RE) : RE := .alt a .eps

/-- `x+` (greedy). -/
def plusRE (a : RE) : RE := .seq a (.star a)

/-! ## JS numeric primitives (exact-rational model) -/

def digitVal (c : Char) : Nat := c.toNat - '0'.toNat

def natOfDigits (cs : List Char) : Nat := cs.foldl (fun n c => 10 * n + digitVal c) 0

/-- `parseFloat`: optional sign, integer digits, optional `.` and fraction
digits; `none` models `NaN` (no digits at all).  Exponents never occur in the
strings this code feeds to `parseFloat` and are not modelled. -/
def parseJSFloat (cs : List Char) : Option ℚ :=
  let signed : ℚ × List Char :=
    match cs with
    | '-' :: t => (-1, t)
    | '+' :: t => (1, t)
    | _ => (1, cs)
  let intDs := signed.2.takeWhile Char.isDigit
  let rest := signed.2.drop intDs.length
  let fracDs :=
    match rest with
    | '.' :: t => t.takeWhile Char.isDigit
    | _ => []
  if intDs = [] ∧ fracDs = [] then none
  else some (signed.1 * ((natOfDigits intDs : ℚ) + (natOfDigits fracDs : ℚ) / 10 ^ fracDs.length))

/-- `String.prototype.replace(',', '.')` — first occurrence only. -/
def replaceFirstComma : List Char → List Char
  | [] => []
  | ',' :: t => '.' :: t
  | c :: t => c :: replaceFirstComma t

/-- Floor of a rational (the values rounded here are positive). -/
def floorQ (q : ℚ) : ℤ := Int.fdiv q.num (q.den : ℤ)

/-- `parseFloat(num.toFixed(p))` for positive `num`: round to `p` decimal
places, half away from zero. -/
def jsToFixed (p : Nat) (q : ℚ) : ℚ := ((floorQ (q * 10 ^ p + 1 / 2) : ℚ)) / 10 ^ p

/-! ## `parseOCRText` — price extraction -/

/-- `/(\d{1,6}[.,]\d{2,5})/g` -/
def pricePat1 : RE := .seq (.rep digitC 1 6) (.seq sepC (.rep digitC 2 5))

/-- `/(\d{1,3}(?:[.,]\d{3})*[.,]\d{2})/g` -/
def pricePat2 : RE :=
  .seq (.rep digitC 1 3)
    (.seq (.star (.seq sepC (.rep digitC 3 3))) (.seq sepC (.rep digitC 2 2)))

/-- `/([$€£¥]\s*(\d+[.,]\d+))/gi` -/
def pricePat3 : RE :=
  .seq currencyC (.seq (.star (.cls isJSSpace)) (.seq (plusRE digitC) (.seq sepC (plusRE digitC))))

def pricePatterns : List RE := [pricePat1, pricePat2, pricePat3]

/-- Characters removed by `match.replace(/[$,€£¥\s]/g, '')`. -/
def priceStripChar (c : Char) : Bool :=
  c = '$' || c = ',' || c = '€' || c = '£' || c = '¥' || isJSSpace c

/-- Clean one regex match, parse it, discard non-positive / `NaN` values and
round to the magnitude-dependent precision (lines 224–234 of the source). -/
def processPriceMatch (m : List Char) : Option ℚ :=
  let clean := m.filter (fun c => !(priceStripChar c))
  let normalized := replaceFirstComma clean
  match parseJSFloat normalized with
  | none => none
  | some num =>
    if 0 < num then
      some (jsToFixed (if num < 10 then 5 else if num < 1000 then 4 else 2) num)
    else none

def allPricesOf (cs : List Char) : List ℚ :=
  pricePatterns.flatMap (fun pat => (globalMatches pat cs).filterMap processPriceMatch)

/-- `[...new Set(allPrices)]` — deduplication keeping first occurrences. -/
def jsSetDedupGo (seen : List ℚ) : List ℚ → List ℚ
  | [] => []
  | a :: t => if a ∈ seen then jsSetDedupGo seen t else a :: jsSetDedupGo (a :: seen) t

def jsSetDedup (l : List ℚ) : List ℚ := jsSetDedupGo [] l

/-- Lines 239–241: dedup, sort ascending (`(a, b) => a - b`), keep first 15. -/
def priceLevelsOf (cs : List Char) : List ℚ :=
  (List.insertionSort (· ≤ ·) (jsSetDedup (allPricesOf cs))).take 15

/-! ## `parseOCRText` — indicator extraction -/

/-- `[\s:=]*` between an indicator label and its number. -/
def labelSepRE : RE := .star (.cls (fun c => isJSSpace c || c = ':' || c = '='))

/-- Prefix of `/RSI[\s:=]*(\d{1,3}(?:[.,]\d{1,2})?)/i`. -/
def rsiPre1 : RE := .seq (litCI "RSI") labelSepRE

/-- Prefix of `/Relative Strength Index[\s:=]*(\d{1,3}(?:[.,]\d{1,2})?)/i`. -/
def rsiPre2 : RE := .seq (litCI "Relative Strength Index") labelSepRE

/-- Group `(\d{1,3}(?:[.,]\d{1,2})?)` shared by both RSI patterns. -/
def rsiNumRE : RE := .seq (.rep digitC 1 3) (optRE (.seq sepC (.rep digitC 1 2)))

/-- The per-pattern candidate value: first match in the text, captured group,
`replace(',', '.')`, `parseFloat` (lines 250–252). -/
def rsiMatchValue (pre : RE) (cs : List Char) : Option ℚ :=
  (scanCap pre rsiNumRE cs).bind (fun cap => parseJSFloat (replaceFirstComma cap))

/-- Lines 249–258: try the patterns in order; a valid (`[0,100]`) value is
recorded and the loop breaks; an invalid or `NaN` value falls through to the
next pattern. -/
def rsiLoopGo (cs : List Char) : List RE → Option ℚ
  | [] => none
  | pre :: rest =>
    match rsiMatchValue pre cs with
    | some v => if 0 ≤ v ∧ v ≤ 100 then some v else rsiLoopGo cs rest
    | none => rsiLoopGo cs rest

def rsiPatterns : List RE := [rsiPre1, rsiPre2]

def rsiOf (cs : List Char) : Option ℚ := rsiLoopGo cs rsiPatterns

/-- Prefix of `/MACD[\s:=]*([-]?\d{1,6}(?:[.,]\d{1,5})?)/i`. -/
def macdPre : RE := .seq (litCI "MACD") labelSepRE

/-- Group `([-]?\d{1,6}(?:[.,]\d{1,5})?)`. -/
def macdNumRE : RE :=
  .seq (optRE (.cls (fun c => c = '-'))) (.seq (.rep digitC 1 6) (optRE (.seq sepC (.rep digitC 1 5))))

/-- Lines 261–268: any parseable MACD value is accepted, no range restriction. -/
def macdOf (cs : List Char) : Option ℚ :=
  (scanCap macdPre macdNumRE cs).bind (fun cap => parseJSFloat (replaceFirstComma cap))

/-- Group 1 `(MA|SMA|EMA)` of `/(MA|SMA|EMA)[\s:=]*(\d{1,6}(?:[.,]\d{1,5})?)/gi`
(JS alternation preference: leftmost alternative first). -/
def maTagRE : RE := .alt (litCI "MA") (.alt (litCI "SMA") (litCI "EMA"))

/-- Group 2 `(\d{1,6}(?:[.,]\d{1,5})?)`. -/
def maNumRE : RE := .seq (.rep digitC 1 6) (optRE (.seq sepC (.rep digitC 1 5)))

/-- Indicator map.  The source stores indicators in an object whose keys can
only be `RSI`, `MACD`, `MA`, `SMA`, `EMA`; one optional field per key. -/
structure Indicators where
  RSI : Option ℚ
  MACD : Option ℚ
  MA : Option ℚ
  SMA : Option ℚ
  EMA : Option ℚ
deriving DecidableEq, Repr

def Indicators.empty : Indicators :=
  { RSI := none, MACD := none, MA := none, SMA := none, EMA := none }

/-- `Object.keys(indicators).length > 0`. -/
def Indicators.nonempty (ind : Indicators) : Bool :=
  ind.RSI.isSome || ind.MACD.isSome || ind.MA.isSome || ind.SMA.isSome || ind.EMA.isSome

/-- One iteration of the `while ((maMatch = maPattern.exec(text)) !== null)` loop
body (lines 273–279): uppercase the tag, parse the value, record it if not `NaN`. -/
def recordMA (tag val : List Char) (ind : Indicators) : Indicators :=
  let t := (tag.map Char.toUpper).asString
  match parseJSFloat (replaceFirstComma val) with
  | none => ind
  | some v =>
    if t = "MA" then { ind with MA := some v }
    else if t = "SMA" then { ind with SMA := some v }
    else if t = "EMA" then { ind with EMA := some v }
    else ind

/-- The `exec` loop: scan left to right, resume after each match.  Every match
consumes at least three characters, so fuel `|s|` is never exhausted first. -/
def maLoopAux : Nat → List Char → Indicators → Indicators
  | 0, _, ind => ind
  | _ + 1, [], ind => ind
  | fuel + 1, s, ind =>
    match matchCap2At maTagRE labelSepRE maNumRE s with
    | some (cap1, cap2, suffix) => maLoopAux fuel suffix (recordMA cap1 cap2 ind)
    | none => maLoopAux fuel s.tail ind

/-- Lines 243–279 in source order: RSI, then MACD, then the moving-average loop. -/
def indicatorsOf (cs : List Char) : Indicators :=
  maLoopAux cs.length cs
    { RSI := rsiOf cs, MACD := macdOf cs, MA := none, SMA := none, EMA := none }

/-! ## `parseOCRText` — assembled result -/

structure ExtractedData where
  priceLevels : List ℚ
  indicators : Indicators
  labels : List String
  hasData : Bool
deriving DecidableEq, Repr

structure OCRData where
  rawText : String
  extractedData : ExtractedData
deriving DecidableEq, Repr

/-- `parseOCRText` (lines 200–291).  All operations inside the source's `try`
block are total string/regex computations, so the `catch` clause is
unreachable; `hasData` is the disjunction computed at lines 282–284. -/
def parseOCRText (text : String) : OCRData :=
  { rawText := (text.toList.take 1500).asString
    extractedData :=
      { priceLevels := priceLevelsOf text.toList
        indicators := indicatorsOf text.toList
        labels := []
        hasData :=
          decide (0 < (priceLevelsOf text.toList).length) || (indicatorsOf text.toList).nonempty } }

/-- The literal returned on any OCR failure (lines 188–196). -/
def emptyOCRData : OCRData :=
  { rawText := ""
    extractedData :=
      { priceLevels := [], indicators := Indicators.empty, labels := [], hasData := false } }

/-! ## `preprocessImage` (lines 127–155)

The sharp library is an external collaborator: its metadata probe and the
execution of the queued transform pipeline (resize-if-large, grayscale,
normalise, sharpen, median — errors of every queued step surface when the
pipeline runs, i.e. at `toBuffer()`) are oracle functions. -/

structure ImgMeta where
  width : Nat
  height : Nat
deriving DecidableEq, Repr

/-- The transform pipeline queued by lines 133–147. -/
structure PipelineSteps where
  resized : Bool
  grayscale : Bool
  normalise : Bool
  sharpenSigma : ℚ
  medianRadius : Nat
deriving DecidableEq, Repr

def pipelineFor (info : ImgMeta) : PipelineSteps :=
  { resized := decide (2000 < info.width) || decide (2000 < info.height)
    grayscale := true
    normalise := true
    sharpenSigma := 1
    medianRadius := 1 }

structure SharpEnv where
  metadata : List Nat → Except String ImgMeta
  run : List Nat → PipelineSteps → Except String (List Nat)

/-- `preprocessImage`: the whole body is wrapped in `try`; the `catch` returns
the original buffer. -/
def preprocessImage (env : SharpEnv) (imageBuffer : List Nat) : List Nat :=
  match env.metadata imageBuffer with
  | .error _ => imageBuffer
  | .ok info =>
    match env.run imageBuffer (pipelineFor info) with
    | .error _ => imageBuffer
    | .ok processed => processed

/-! ## `extractChartDataWithOCR` (lines 157–198)

The tesseract.js worker is an external collaborator.  `terminate` may itself
fail (the source wraps the catch-path call in its own `try {} catch {}`); the
trace records how many times a session was acquired and how many times
`terminate` was invoked. -/

structure OCREnv where
  createWorker : Except String Unit
  setParameters : Except String Unit
  recognize : List Nat → Except String String
  terminate : Nat → Except String Unit

structure OCRTrace where
  acquires : Nat
  terminateCalls : Nat
deriving DecidableEq, Repr

/-- Control flow of `extractChartDataWithOCR`:
* `createWorker` fails → `worker` is still null, catch returns the empty result;
* `setParameters` or `recognize` throws → catch terminates the worker once
  (that call's own failure is swallowed) and returns the empty result;
* recognition succeeds and the un-guarded `await worker.terminate()` (line 177)
  succeeds → `worker = null`, the text is parsed;
* that same `terminate` throws → control reaches the catch with `worker` still
  non-null, so `terminate` is invoked a second time and the empty result is
  returned even though recognition succeeded. -/
def extractChartDataWithOCR (env : OCREnv) (imageBuffer : List Nat) : OCRData × OCRTrace :=
  match env.createWorker with
  | .error _ => (emptyOCRData, { acquires := 0, terminateCalls := 0 })
  | .ok _ =>
    match env.setParameters with
    | .error _ => (emptyOCRData, { acquires := 1, terminateCalls := 1 })
    | .ok _ =>
      match env.recognize imageBuffer with
      | .error _ => (emptyOCRData, { acquires := 1, terminateCalls := 1 })
      | .ok text =>
        match env.terminate 0 with
        | .ok _ => (parseOCRText text, { acquires := 1, terminateCalls := 1 })
        | .error _ => (emptyOCRData, { acquires := 1, terminateCalls := 2 })

/-! ## `parseAIResponse` (lines 474–508) and the fallback (lines 510–559) -/

/-- JavaScript values as produced by `JSON.parse` plus the `undefined` used
when reading an absent property. -/
inductive JVal where
  | null
  | undef
  | bool (b : Bool)
  | num (q : ℚ)
  | str (s : String)
  | arr (elems : List JVal)
  | obj (fields : List (String × JVal))

/-- Property write on a JS object: an existing key is overwritten in place, a
new key is appended. -/
def setAssoc : List (String × JVal) → String → JVal → List (String × JVal)
  | [], k, v => [(k, v)]
  | (k', v') :: t, k, v => if k' = k then (k, v) :: t else (k', v') :: setAssoc t k v

def setField (j : JVal) (k : String) (v : JVal) : JVal :=
  match j with
  | .obj fields => .obj (setAssoc fields k v)
  | _ => j

def lookupAssoc : List (String × JVal) → String → Option JVal
  | [], _ => none
  | (k', v') :: t, k => if k' = k then some v' else lookupAssoc t k

/-- Property read; `none` models `undefined` (including reads on non-objects,
which only ever feed the truthiness test below). -/
def getField : JVal → String → Option JVal
  | .obj fields, k => lookupAssoc fields k
  | _, _ => none

/-- JS truthiness, as used by `!parsedData.decision`. -/
def truthyJ : JVal → Bool
  | .null => false
  | .undef => false
  | .bool b => b
  | .num q => decide (q ≠ 0)
  | .str s => decide (s ≠ "")
  | .arr _ => true
  | .obj _ => true

def truthyOpt : Option JVal → Bool
  | none => false
  | some j => truthyJ j

/-- `constants.MESSAGES.DISCLAIMER`. -/
def DISCLAIMER : String :=
  "⚠️ This is AI-generated analysis for educational purposes only. Trading involves substantial risk of loss. Past performance is not indicative of future results."

/-- `/```json\s*/gi` (content cleaning, line 481). -/
def fenceJsonRE : RE := .seq (litCI "```json") (.star (.cls isJSSpace))

/-- `/```\s*/gi` (line 482). -/
def fenceRE : RE := .seq (litCI "```") (.star (.cls isJSSpace))

/-- `.replace(/^json\s*/i, '')` (line 483) — anchored, first occurrence only. -/
def dropJsonTag (cs : List Char) : List Char :=
  match (matchesRE (.seq (litCI "json") (.star (.cls isJSSpace))) cs).head? with
  | some suffix => suffix
  | none => cs

/-- `.trim()`. -/
def trimChars (cs : List Char) : List Char :=
  ((cs.dropWhile (fun c => isJSSpace c)).reverse.dropWhile (fun c => isJSSpace c)).reverse

/-- Lines 480–484: strip code fences and a leading language tag, then trim. -/
def cleanContent (content : String) : String :=
  (trimChars (dropJsonTag (globalReplace fenceRE (globalReplace fenceJsonRE content.toList)))).asString

structure UsageRec where
  prompt_tokens : Option ℚ
  completion_tokens : Option ℚ
  total_tokens : Option ℚ
deriving DecidableEq, Repr

structure MessageRec where
  content : String
deriving DecidableEq, Repr

structure ChoiceRec where
  message : MessageRec
deriving DecidableEq, Repr

structure ApiResponse where
  choices : List ChoiceRec
  usage : Option UsageRec
deriving DecidableEq, Repr

def optNum : Option ℚ → JVal
  | none => .undef
  | some q => .num q

/-- The `api_usage` object built at lines 496–500 (`usage = apiResponse.usage || {}`). -/
def usageJ (u : UsageRec) : JVal :=
  .obj [("prompt_tokens", optNum u.prompt_tokens),
        ("completion_tokens", optNum u.completion_tokens),
        ("total_tokens", optNum u.total_tokens)]

structure ZoneBlock where
  level : String
  description : String
  confidence : String
deriving DecidableEq, Repr

structure RsiBlock where
  approx_value : String
  status : String
  divergence : Bool
deriving DecidableEq, Repr

structure MacdBlock where
  cross : String
  histogram : String
  momentum : String
deriving DecidableEq, Repr

structure VisionSummary where
  trend_structure : String
  trend_confidence : String
  support_zone : ZoneBlock
  resistance_zone : ZoneBlock
  rsi : RsiBlock
  macd : MacdBlock
  key_notes : String
deriving DecidableEq, Repr

structure DecisionBlock where
  action : String
  entry : String
  sl : String
  tp1 : String
  tp2 : String
  probability : String
  risk_reward : String
  reason : String
  invalid_if : String
deriving DecidableEq, Repr

structure RiskAssessment where
  level : String
  recommended_position : String
  timeframe_suitability : String
deriving DecidableEq, Repr

structure ErrorBlock where
  message : String
  requestId : Nat
  timestamp : String
deriving DecidableEq, Repr

structure FallbackAnalysis where
  vision_summary : VisionSummary
  decision : DecisionBlock
  risk_assessment : RiskAssessment
  error : ErrorBlock
deriving DecidableEq, Repr

/-- `getFallbackAnalysis` (lines 510–559), translated field by field.  The
`symbol`/`timeframe`/`tradeType` parameters are accepted and ignored exactly as
in the source; `error` is the message of the causing error (`none` models a
falsy `error`/`error.message`); `timestamp` models `new Date().toISOString()`. -/
def getFallbackAnalysis (symbol timeframe tradeType : String) (error : Option String)
    (requestId : Nat) (timestamp : String) : FallbackAnalysis :=
  { vision_summary :=
      { trend_structure := "Analysis failed"
        trend_confidence := "low"
        support_zone :=
          { level := "N/A", description := "Technical analysis incomplete", confidence := "low" }
        resistance_zone :=
          { level := "N/A", description := "Technical analysis incomplete", confidence := "low" }
        rsi := { approx_value := "N/A", status := "unknown", divergence := false }
        macd := { cross := "unknown", histogram := "unknown", momentum := "unknown" }
        key_notes := "Unable to complete technical analysis. Please ensure chart image is clear, well-lit, and contains visible price/indicator data." }
    decision :=
      { action := "HOLD"
        entry := "N/A"
        sl := "N/A"
        tp1 := "N/A"
        tp2 := "N/A"
        probability := "0%"
        risk_reward := "N/A"
        reason := "Technical analysis failed: " ++ (error.getD "Insufficient or unclear chart data") ++ ". Please upload a clearer screenshot with visible price levels."
        invalid_if := "N/A" }
    risk_assessment :=
      { level := "high", recommended_position := "none", timeframe_suitability := "poor" }
    error :=
      { message := error.getD "Analysis failed"
        requestId := requestId
        timestamp := timestamp } }

/-- What `analyzeTradingChart` spreads into its result: either the parsed AI
reply (a JS object) or a fallback analysis. -/
inductive AnalysisPayload where
  | parsed (j : JVal)
  | fallback (f : FallbackAnalysis)

def AnalysisPayload.isFallback : AnalysisPayload → Bool
  | .parsed _ => false
  | .fallback _ => true

/-- The message of the `TypeError` raised by `apiResponse.choices[0].message`
when `choices` is absent or empty (engine-dependent text; only its presence
matters to the claims). -/
def choicesAccessError : String := "Cannot read properties of undefined"

/-- `parseAIResponse` (lines 474–508).  `jsonParse` is the `JSON.parse` oracle
applied to the cleaned content; its `Except` error is the thrown message.  The
function never throws: its `catch` returns `getFallbackAnalysis` with the
placeholder trading parameters. -/
def parseAIResponse (jsonParse : String → Except String JVal) (apiResponse : ApiResponse)
    (requestId : Nat) (timestamp : String) : AnalysisPayload :=
  match apiResponse.choices.head? with
  | none =>
    .fallback (getFallbackAnalysis "Unknown" "Unknown" "Unknown" (some choicesAccessError)
      requestId timestamp)
  | some choice =>
    let usage := apiResponse.usage.getD
      { prompt_tokens := none, completion_tokens := none, total_tokens := none }
    match jsonParse (cleanContent choice.message.content) with
    | .error e =>
      .fallback (getFallbackAnalysis "Unknown" "Unknown" "Unknown" (some e) requestId timestamp)
    | .ok parsedData =>
      if truthyOpt (getField parsedData "decision") && truthyOpt (getField parsedData "vision_summary") then
        .parsed (setField (setField parsedData "disclaimer" (.str DISCLAIMER)) "api_usage" (usageJ usage))
      else
        .fallback (getFallbackAnalysis "Unknown" "Unknown" "Unknown"
          (some "Invalid response structure from AI") requestId timestamp)

/-! ## `analyzeWithAI` and the orchestrator `analyzeTradingChart` -/

/-- The structured inputs of `generateTradingPrompt`; the deterministic prompt
rendering itself carries no claim and is folded into the transport oracle. -/
structure PromptInput where
  ocrData : OCRData
  symbol : String
  timeframe : String
  tradeType : String
  extraNotes : Option String
deriving DecidableEq, Repr

/-- All external collaborators of one request. -/
structure Env where
  sharp : SharpEnv
  ocr : OCREnv
  aiPost : PromptInput → Except String ApiResponse
  jsonParse : String → Except String JVal
  elapsedMs : Nat
  timestamp : String

/-- `analyzeWithAI` (lines 293–332): transport failures are re-thrown wrapped
as `AI service error: …`; a received response is handed to `parseAIResponse`,
which never throws. -/
def analyzeWithAI (env : Env) (ocrData : OCRData) (symbol timeframe tradeType : String)
    (extraNotes : Option String) (requestId : Nat) : Except String AnalysisPayload :=
  match env.aiPost { ocrData := ocrData, symbol := symbol, timeframe := timeframe,
                     tradeType := tradeType, extraNotes := extraNotes } with
  | .error e => .error ("AI service error: " ++ e)
  | .ok resp => .ok (parseAIResponse env.jsonParse resp requestId env.timestamp)

def TRADING_PAIRS : List String :=
  ["XAUUSD", "EURUSD", "BTCUSD", "GBPUSD", "USDJPY", "ETHUSD", "US30", "NAS100"]

structure AnalysisRequest where
  imageBuffer : Option (List Nat)
  symbol : String
  timeframe : String
  tradeType : String
  extraNotes : Option String

/-- `!imageBuffer || imageBuffer.length === 0` (line 77). -/
def bufferEmpty : Option (List Nat) → Bool
  | none => true
  | some [] => true
  | some (_ :: _) => false

/-- The `metadata` block attached on the success path (lines 105–117). -/
structure Metadata where
  requestId : Nat
  processingTime : String
  apiProvider : String
  symbol : String
  timeframe : String
  tradeType : String
  timestamp : String
  version : String
deriving DecidableEq, Repr

def mkMetadata (env : Env) (req : AnalysisRequest) (requestId : Nat) : Metadata :=
  { requestId := requestId
    processingTime := Nat.repr env.elapsedMs ++ "ms"
    apiProvider := "DeepSeek"
    symbol := req.symbol
    timeframe := req.timeframe
    tradeType := req.tradeType
    timestamp := env.timestamp
    version := "1.0.0" }

/-- Result handed back by `analyzeTradingChart`: `metadata = none` on the
catch path (the source's `getFallbackAnalysis` return carries no `metadata`
object and no processing duration). -/
structure OrchestratorResult where
  payload : AnalysisPayload
  metadata : Option Metadata

/-- `analyzeTradingChart` (lines 69–125): input validation, preprocess, OCR,
AI analysis; any error thrown inside the `try` is converted by the `catch`
into `getFallbackAnalysis(symbol, timeframe, tradeType, error, requestId)`. -/
def analyzeTradingChart (env : Env) (req : AnalysisRequest) (requestId : Nat) :
    OrchestratorResult :=
  let attempt : Except String AnalysisPayload :=
    if bufferEmpty req.imageBuffer then .error "Empty image buffer"
    else if !(TRADING_PAIRS.contains req.symbol) then .error ("Invalid symbol: " ++ req.symbol)
    else
      let processedImage := preprocessImage env.sharp (req.imageBuffer.getD [])
      let ocrData := (extractChartDataWithOCR env.ocr processedImage).1
      analyzeWithAI env ocrData req.symbol req.timeframe req.tradeType req.extraNotes requestId
  match attempt with
  | .ok analysisResult =>
    { payload := analysisResult, metadata := some (mkMetadata env req requestId) }
  | .error e =>
    { payload := .fallback (getFallbackAnalysis req.symbol req.timeframe req.tradeType (some e)
        requestId env.timestamp)
      metadata := none }

/-- The prompt input the orchestrator hands to the AI stage for a request that
passed input validation. -/
def promptInputFor (env : Env) (req : AnalysisRequest) : PromptInput :=
  { ocrData := (extractChartDataWithOCR env.ocr
      (preprocessImage env.sharp (req.imageBuffer.getD []))).1
    symbol := req.symbol
    timeframe := req.timeframe
    tradeType := req.tradeType
    extraNotes := req.extraNotes }

/-! ## Auxiliary definitions for the claims -/

/-- The explicit acceptance test of line 253. -/
def rsiValid (v : ℚ) : Bool := decide (0 ≤ v) && decide (v ≤ 100)

/-- A failure raised at the AI-invocation stage (the transport oracle errors)
or absorbed at the response-validation stage (the validator returns a
fallback). -/
def aiStageFails (env : Env) (req : AnalysisRequest) (rid : Nat) : Prop :=
  (∃ e, env.aiPost (promptInputFor env req) = .error e) ∨
  (∃ resp f, env.aiPost (promptInputFor env req) = .ok resp ∧
    parseAIResponse env.jsonParse resp rid env.timestamp = .fallback f)

/-- Sharp oracle whose metadata probe fails (corrupt input). -/
def sharpFailEnv : SharpEnv :=
  { metadata := fun _ => .error "Input buffer contains unsupported image format"
    run := fun _ _ => .error "Input buffer contains unsupported image format" }

/-- OCR oracle: acquisition, configuration and recognition succeed, but the
un-guarded success-path `terminate` (line 177) throws. -/
def ocrEnvTermFail : OCREnv :=
  { createWorker := .ok ()
    setParameters := .ok ()
    recognize := fun _ => .ok "RSI: 50"
    terminate := fun _ => .error "terminate failed" }

/-- OCR oracle on which every worker call succeeds. -/
def ocrEnvAllOk : OCREnv :=
  { createWorker := .ok ()
    setParameters := .ok ()
    recognize := fun _ => .ok ""
    terminate := fun _ => .ok () }

/-- Full environment whose AI transport times out; every other collaborator is
healthy enough to reach the AI stage. -/
def envFailAI : Env :=
  { sharp := sharpFailEnv
    ocr := ocrEnvAllOk
    aiPost := fun _ => .error "timeout of 45000ms exceeded"
    jsonParse := fun _ => .error "Unexpected end of JSON input"
    elapsedMs := 120
    timestamp := "2026-02-03T04:05:06.789Z" }

/-- A request that passes the orchestrator's input validation. -/
def reqValid : AnalysisRequest :=
  { imageBuffer := some [1, 2, 3]
    symbol := "EURUSD"
    timeframe := "H1"
    tradeType := "swing"
    extraNotes := none }

/-- A request with a missing image buffer. -/
def reqNoImage : AnalysisRequest :=
  { imageBuffer := none
    symbol := "EURUSD"
    timeframe := "H1"
    tradeType := "swing"
    extraNotes := none }

/-- A parsed reply whose two required top-level fields are both present but
whose `decision` is `null` (falsy). -/
def cexReplyObj : JVal := .obj [("decision", .null), ("vision_summary", .obj [])]

/-- `JSON.parse` oracle returning `cexReplyObj` for any cleaned content. -/
def cexParse : String → Except String JVal := fun _ => .ok cexReplyObj

def cexResp : ApiResponse :=
  { choices := [{ message := { content := "reply" } }], usage := none }

/-- A well-formed parsed reply used by the validation witness. -/
def fencedReplyObj : JVal := .obj [("decision", .str "HOLD"), ("vision_summary", .obj [])]

/-- `JSON.parse` oracle accepting exactly the de-fenced payload. -/
def fencedParse : String → Except String JVal :=
  fun s => if s = "payload" then .ok fencedReplyObj else .error "Unexpected token"

/-- A reply wrapped in a ```json code fence, with token usage reported. -/
def fencedResp : ApiResponse :=
  { choices := [{ message := { content := "```json payload ```" } }]
    usage := some { prompt_tokens := some 100, completion_tokens := some 200,
                    total_tokens := some 300 } }

/-! ## Lemmas about the price-level pipeline -/

theorem jsSetDedupGo_not_mem_seen :
    ∀ (t seen : List ℚ) (x : ℚ), x ∈ jsSetDedupGo seen t → x ∉ seen := by
  intro t
  induction t with
  | nil => intro seen x hx; simp [jsSetDedupGo] at hx
  | cons a t ih =>
    intro seen x hx
    by_cases ha : a ∈ seen
    · rw [jsSetDedupGo, if_pos ha] at hx
      exact ih seen x hx
    · rw [jsSetDedupGo, if_neg ha] at hx
      rcases List.mem_cons.mp hx with rfl | hx'
      · exact ha
      · intro hmem
        exact ih (a :: seen) x hx' (List.mem_cons_of_mem a hmem)

theorem jsSetDedupGo_nodup : ∀ (t seen : List ℚ), (jsSetDedupGo seen t).Nodup := by
  intro t
  induction t with
  | nil => intro seen; simp [jsSetDedupGo]
  | cons a t ih =>
    intro seen
    by_cases ha : a ∈ seen
    · rw [jsSetDedupGo, if_pos ha]; exact ih seen
    · rw [jsSetDedupGo, if_neg ha]
      refine List.nodup_cons.mpr ⟨?_, ih (a :: seen)⟩
      intro hmem
      exact jsSetDedupGo_not_mem_seen t (a :: seen) a hmem (List.mem_cons_self a seen)

theorem jsSetDedup_nodup (l : List ℚ) : (jsSetDedup l).Nodup :=
  jsSetDedupGo_nodup l []

theorem priceLevelsOf_sorted (cs : List Char) : (priceLevelsOf cs).Sorted (· ≤ ·) :=
  (List.sorted_insertionSort (· ≤ ·) (jsSetDedup (allPricesOf cs))).sublist
    (List.take_sublist 15 _)

theorem priceLevelsOf_nodup (cs : List Char) : (priceLevelsOf cs).Nodup :=
  List.Nodup.sublist (List.take_sublist 15 _)
    ((List.perm_insertionSort (· ≤ ·) (jsSetDedup (allPricesOf cs))).nodup_iff.mpr
      (jsSetDedup_nodup _))

theorem priceLevelsOf_length_le (cs : List Char) : (priceLevelsOf cs).length ≤ 15 :=
  List.length_take_le 15 _

/-! ## Lemmas about the indicator pipeline -/

theorem rsiLoopGo_mem_range (cs : List Char) :
    ∀ (ps : List RE) (v : ℚ), rsiLoopGo cs ps = some v → 0 ≤ v ∧ v ≤ 100 := by
  intro ps
  induction ps with
  | nil => intro v h; simp [rsiLoopGo] at h
  | cons pre rest ih =>
    intro v h
    rw [rsiLoopGo] at h
    cases hm : rsiMatchValue pre cs with
    | none => rw [hm] at h; exact ih v h
    | some w =>
      rw [hm] at h
      have h' : (if 0 ≤ w ∧ w ≤ 100 then some w else rsiLoopGo cs rest) = some v := h
      by_cases hw : 0 ≤ w ∧ w ≤ 100
      · rw [if_pos hw] at h'
        cases h'
        exact hw
      · rw [if_neg hw] at h'
        exact ih v h'

theorem rsiLoopGo_eq_firstValid (cs : List Char) :
    ∀ ps : List RE,
      rsiLoopGo cs ps =
        ((ps.filterMap (fun pre => rsiMatchValue pre cs)).filter rsiValid).head? := by
  intro ps
  induction ps with
  | nil => simp [rsiLoopGo]
  | cons pre rest ih =>
    rw [rsiLoopGo]
    cases hm : rsiMatchValue pre cs with
    | none => simp [hm, ih]
    | some w =>
      have hiff : rsiValid w = true ↔ (0 ≤ w ∧ w ≤ 100) := by
        simp [rsiValid]
      by_cases hw : 0 ≤ w ∧ w ≤ 100
      · have hv : rsiValid w = true := hiff.mpr hw
        simp [hm, hw, hv, List.filterMap_cons, List.filter_cons]
      · have hv : rsiValid w = false :=
          Bool.eq_false_iff.mpr (fun hbt => hw (hiff.mp hbt))
        simp [hm, hw, hv, ih, List.filterMap_cons, List.filter_cons]

theorem recordMA_RSI (tag val : List Char) (ind : Indicators) :
    (recordMA tag val ind).RSI = ind.RSI := by
  rw [recordMA]
  cases parseJSFloat (replaceFirstComma val) with
  | none => rfl
  | some v =>
    simp only []
    split <;> try rfl
    split <;> try rfl
    split <;> rfl

theorem maLoopAux_RSI :
    ∀ (fuel : Nat) (s : List Char) (ind : Indicators), (maLoopAux fuel s ind).RSI = ind.RSI := by
  intro fuel
  induction fuel with
  | zero => intro s ind; rfl
  | succ n ih =>
    intro s ind
    cases s with
    | nil => rfl
    | cons c rest =>
      cases hmc : matchCap2At maTagRE labelSepRE maNumRE (c :: rest) with
      | none =>
        have hdef : maLoopAux (n + 1) (c :: rest) ind = maLoopAux n (c :: rest).tail ind := by
          show (match matchCap2At maTagRE labelSepRE maNumRE (c :: rest) with
                | some (cap1, cap2, suffix) => maLoopAux n suffix (recordMA cap1 cap2 ind)
                | none => maLoopAux n (c :: rest).tail ind) = maLoopAux n (c :: rest).tail ind
          rw [hmc]
        rw [hdef]
        exact ih _ _
      | some triple =>
        obtain ⟨cap1, cap2, suffix⟩ := triple
        have hdef : maLoopAux (n + 1) (c :: rest) ind =
            maLoopAux n suffix (recordMA cap1 cap2 ind) := by
          show (match matchCap2At maTagRE labelSepRE maNumRE (c :: rest) with
                | some (cap1, cap2, suffix) => maLoopAux n suffix (recordMA cap1 cap2 ind)
                | none => maLoopAux n (c :: rest).tail ind) =
            maLoopAux n suffix (recordMA cap1 cap2 ind)
          rw [hmc]
        rw [hdef, ih, recordMA_RSI]

theorem indicatorsOf_RSI (cs : List Char) : (indicatorsOf cs).RSI = rsiOf cs := by
  rw [indicatorsOf, maLoopAux_RSI]

theorem Indicators.nonempty_eq_true_iff (ind : Indicators) :
    ind.nonempty = true ↔ ind ≠ Indicators.empty := by
  cases ind with
  | mk r m ma sma ema =>
    simp only [Indicators.nonempty, Indicators.empty, Bool.or_eq_true, Option.isSome_iff_ne_none,
      ne_eq, Indicators.mk.injEq, not_and_or]
    tauto

/-! ## Claim theorems: the OCR text parser -/

/-- **C2.** For every raw text input, the `priceLevels` list produced by
`parseOCRText` is sorted in ascending order, contains no duplicate values, and
has length at most 15. -/
theorem parseOCRText_priceLevels_sorted_nodup_le15 (text : String) :
    (parseOCRText text).extractedData.priceLevels.Sorted (· ≤ ·) ∧
    (parseOCRText text).extractedData.priceLevels.Nodup ∧
    (parseOCRText text).extractedData.priceLevels.length ≤ 15 :=
  ⟨priceLevelsOf_sorted text.toList, priceLevelsOf_nodup text.toList,
    priceLevelsOf_length_le text.toList⟩

/-- **C3.** For every raw text input, the result of `parseOCRText` satisfies
`hasData == (priceLevels is non-empty OR the indicators map is non-empty)`.
(In the embedding every extraction step is a total string computation, so the
partial-failure `catch` clause of the source is unreachable and the invariant
holds for all parser outputs.) -/
theorem parseOCRText_hasData_iff (text : String) :
    (parseOCRText text).extractedData.hasData = true ↔
      ((parseOCRText text).extractedData.priceLevels ≠ [] ∨
        (parseOCRText text).extractedData.indicators ≠ Indicators.empty) := by
  show (decide (0 < (priceLevelsOf text.toList).length) ||
      (indicatorsOf text.toList).nonempty) = true ↔ _
  rw [Bool.or_eq_true, decide_eq_true_eq, List.length_pos, Indicators.nonempty_eq_true_iff]
  exact Iff.rfl

/-- **C4.** For every raw text input, a recorded RSI value lies in `[0,100]`
(out-of-range matches are never recorded), and the recorded value is exactly
the first valid match among the labeled RSI patterns, in pattern order. -/
theorem parseOCRText_rsi_range_and_first_valid (text : String) :
    (∀ v : ℚ, (parseOCRText text).extractedData.indicators.RSI = some v → 0 ≤ v ∧ v ≤ 100) ∧
    (parseOCRText text).extractedData.indicators.RSI =
      ((rsiPatterns.filterMap (fun pre => rsiMatchValue pre text.toList)).filter rsiValid).head? := by
  have hr : (parseOCRText text).extractedData.indicators.RSI = rsiOf text.toList :=
    indicatorsOf_RSI text.toList
  constructor
  · intro v hv
    exact rsiLoopGo_mem_range text.toList rsiPatterns v (hr.symm.trans hv)
  · rw [hr, rsiOf, rsiLoopGo_eq_firstValid]

/-- Witness for C4: on the text `"RSI: 55"` the recorded RSI value 55 is
confirmed to lie in `[0,100]` and to agree with the first-valid-match rule. -/
theorem parseOCRText_rsi_range_and_first_valid_witness :
    ((0 : ℚ) ≤ 55 ∧ (55 : ℚ) ≤ 100) ∧
    (parseOCRText "RSI: 55").extractedData.indicators.RSI =
      ((rsiPatterns.filterMap (fun pre => rsiMatchValue pre "RSI: 55".toList)).filter
        rsiValid).head? :=
  ⟨(parseOCRText_rsi_range_and_first_valid "RSI: 55").1 55 (by decide!),
    (parseOCRText_rsi_range_and_first_valid "RSI: 55").2⟩

/-- **C5.** Concrete scenario: on the text
`"Price: 1,234.56 RSI: 72.5 EMA: 1.20500"` the parser extracts price levels
containing `1234.56` and `1.205` (magnitude-dependent rounding: 5 decimal
places below 10, 4 below 1000, otherwise 2), the indicator map
`{RSI: 72.5, EMA: 1.205}` and nothing else, and `hasData` is true. -/
theorem parseOCRText_scenario_c5 :
    ((1234.56 : ℚ) ∈
        (parseOCRText "Price: 1,234.56 RSI: 72.5 EMA: 1.20500").extractedData.priceLevels ∧
      (1.205 : ℚ) ∈
        (parseOCRText "Price: 1,234.56 RSI: 72.5 EMA: 1.20500").extractedData.priceLevels) ∧
    (parseOCRText "Price: 1,234.56 RSI: 72.5 EMA: 1.20500").extractedData.indicators =
      { RSI := some 72.5, MACD := none, MA := none, SMA := none, EMA := some 1.205 } ∧
    (parseOCRText "Price: 1,234.56 RSI: 72.5 EMA: 1.20500").extractedData.hasData = true := by
  decide!

/-! ## Claim theorems: image preprocessing and OCR session lifecycle -/

/-- **C6.** If any preprocessing step fails — the metadata probe, or the
execution of the queued transform pipeline (resize, grayscale, normalisation,
sharpen, median filter) — `preprocessImage` returns the original byte buffer
unchanged; being a total function of its oracles, it never raises, so
preprocessing failure cannot terminate the pipeline. -/
theorem preprocessImage_failure_returns_original (env : SharpEnv) (buf : List Nat) :
    (∀ e, env.metadata buf = .error e → preprocessImage env buf = buf) ∧
    (∀ info e, env.metadata buf = .ok info → env.run buf (pipelineFor info) = .error e →
      preprocessImage env buf = buf) := by
  constructor
  · intro e he
    rw [preprocessImage, he]
  · intro info e hi hr
    rw [preprocessImage, hi]
    show (match env.run buf (pipelineFor info) with
          | .error _ => buf
          | .ok processed => processed) = buf
    rw [hr]

/-- Witness for C6: a concrete corrupt-image oracle, concrete bytes. -/
theorem preprocessImage_failure_returns_original_witness :
    preprocessImage sharpFailEnv [7, 7] = [7, 7] :=
  (preprocessImage_failure_returns_original sharpFailEnv [7, 7]).1
    "Input buffer contains unsupported image format" rfl

/-- **C7 counterexample.** On the exit path where recognition succeeds but the
un-guarded success-path `terminate` (line 177) itself throws, the catch block
(line 184) finds `worker` still non-null and invokes `terminate` a second
time: one acquisition, two terminate calls — refuting "terminated exactly once
… (one release per acquire on every exit path)". -/
theorem extractChartDataWithOCR_terminate_twice :
    (extractChartDataWithOCR ocrEnvTermFail []).2.acquires = 1 ∧
    (extractChartDataWithOCR ocrEnvTermFail []).2.terminateCalls = 2 :=
  ⟨rfl, rfl⟩

/-- **C7 (amended).** On every execution in which a worker session is
successfully acquired: at least one and at most two terminate calls are issued
before control returns; exactly one whenever the first terminate call does not
itself fail — in particular on the success path, on recognition error, and on
exception during parameter configuration; if the success-path terminate
throws, it is retried once by the catch (two calls).  On any OCR failure the
function returns an OCRResult with empty `rawText` and `hasData == false`
instead of propagating the error, and on full success it returns the parsed
recognition text. -/
theorem extractChartDataWithOCR_release_spec (E : OCREnv) (buf : List Nat)
    (hacq : E.createWorker = .ok ()) :
    (extractChartDataWithOCR E buf).2.acquires = 1 ∧
    1 ≤ (extractChartDataWithOCR E buf).2.terminateCalls ∧
    (extractChartDataWithOCR E buf).2.terminateCalls ≤ 2 ∧
    (E.terminate 0 = .ok () → (extractChartDataWithOCR E buf).2.terminateCalls = 1) ∧
    ((∃ e, E.setParameters = .error e) ∨ (∃ e, E.recognize buf = .error e) →
      (extractChartDataWithOCR E buf).2.terminateCalls = 1 ∧
      (extractChartDataWithOCR E buf).1 = emptyOCRData) ∧
    (∀ text e, E.setParameters = .ok () → E.recognize buf = .ok text →
      E.terminate 0 = .error e →
      (extractChartDataWithOCR E buf).2.terminateCalls = 2 ∧
      (extractChartDataWithOCR E buf).1 = emptyOCRData) ∧
    (∀ text, E.setParameters = .ok () → E.recognize buf = .ok text → E.terminate 0 = .ok () →
      (extractChartDataWithOCR E buf).1 = parseOCRText text) := by
  cases hsp : E.setParameters with
  | error e0 =>
    have hE : extractChartDataWithOCR E buf =
        (emptyOCRData, { acquires := 1, terminateCalls := 1 }) := by
      rw [extractChartDataWithOCR, hacq, hsp]
    rw [hE]
    refine ⟨rfl, Nat.le_refl 1, Nat.le_succ 1, fun _ => rfl, fun _ => ⟨rfl, rfl⟩, ?_, ?_⟩
    · intro text e h1 _ _
      exact Except.noConfusion h1
    · intro text h1 _ _
      exact Except.noConfusion h1
  | ok u =>
    cases u
    cases hrec : E.recognize buf with
    | error e1 =>
      have hE : extractChartDataWithOCR E buf =
          (emptyOCRData, { acquires := 1, terminateCalls := 1 }) := by
        rw [extractChartDataWithOCR, hacq, hsp, hrec]
      rw [hE]
      refine ⟨rfl, Nat.le_refl 1, Nat.le_succ 1, fun _ => rfl, fun _ => ⟨rfl, rfl⟩, ?_, ?_⟩
      · intro text e _ h2 _
        exact Except.noConfusion h2
      · intro text _ h2 _
        exact Except.noConfusion h2
    | ok text0 =>
      cases hterm : E.terminate 0 with
      | error e2 =>
        have hE : extractChartDataWithOCR E buf =
            (emptyOCRData, { acquires := 1, terminateCalls := 2 }) := by
          rw [extractChartDataWithOCR, hacq, hsp, hrec, hterm]
        rw [hE]
        refine ⟨rfl, Nat.le_succ 1, Nat.le_refl 2, ?_, ?_, fun _ _ _ _ _ => ⟨rfl, rfl⟩, ?_⟩
        · intro h3
          exact Except.noConfusion h3
        · rintro (⟨e, h1⟩ | ⟨e, h2⟩)
          · exact Except.noConfusion h1
          · exact Except.noConfusion h2
        · intro text _ _ h3
          exact Except.noConfusion h3
      | ok u2 =>
        cases u2
        have hE : extractChartDataWithOCR E buf =
            (parseOCRText text0, { acquires := 1, terminateCalls := 1 }) := by
          rw [extractChartDataWithOCR, hacq, hsp, hrec, hterm]
        rw [hE]
        refine ⟨rfl, Nat.le_refl 1, Nat.le_succ 1, fun _ => rfl, ?_, ?_, ?_⟩
        · rintro (⟨e, h1⟩ | ⟨e, h2⟩)
          · exact Except.noConfusion h1
          · exact Except.noConfusion h2
        · intro text e _ _ h3
          exact Except.noConfusion h3
        · intro text _ h2 _
          cases h2
          rfl

/-- Witness for the amended C7 on the all-success oracle: one acquisition, one
terminate call, parsed result. -/
theorem extractChartDataWithOCR_release_spec_witness :
    (extractChartDataWithOCR ocrEnvAllOk []).2.acquires = 1 ∧
    (extractChartDataWithOCR ocrEnvAllOk []).2.terminateCalls = 1 ∧
    (extractChartDataWithOCR ocrEnvAllOk []).1 = parseOCRText "" :=
  ⟨(extractChartDataWithOCR_release_spec ocrEnvAllOk [] rfl).1,
    (extractChartDataWithOCR_release_spec ocrEnvAllOk [] rfl).2.2.2.1 rfl,
    (extractChartDataWithOCR_release_spec ocrEnvAllOk [] rfl).2.2.2.2.2.2 "" rfl rfl rfl⟩

/-! ## Lemmas about `analyzeWithAI` and the orchestrator -/

theorem analyzeWithAI_error (env : Env) (ocrData : OCRData) (s t tt : String)
    (notes : Option String) (rid : Nat) (e : String)
    (h : env.aiPost { ocrData := ocrData, symbol := s, timeframe := t, tradeType := tt,
                      extraNotes := notes } = .error e) :
    analyzeWithAI env ocrData s t tt notes rid = .error ("AI service error: " ++ e) := by
  rw [analyzeWithAI, h]

theorem analyzeWithAI_ok (env : Env) (ocrData : OCRData) (s t tt : String)
    (notes : Option String) (rid : Nat) (resp : ApiResponse)
    (h : env.aiPost { ocrData := ocrData, symbol := s, timeframe := t, tradeType := tt,
                      extraNotes := notes } = .ok resp) :
    analyzeWithAI env ocrData s t tt notes rid =
      .ok (parseAIResponse env.jsonParse resp rid env.timestamp) := by
  rw [analyzeWithAI, h]

theorem analyzeTradingChart_empty_buffer (env : Env) (req : AnalysisRequest) (rid : Nat)
    (hbuf : bufferEmpty req.imageBuffer = true) :
    analyzeTradingChart env req rid =
      { payload := .fallback (getFallbackAnalysis req.symbol req.timeframe req.tradeType
          (some "Empty image buffer") rid env.timestamp)
        metadata := none } := by
  simp [analyzeTradingChart, hbuf]

theorem analyzeTradingChart_invalid_symbol (env : Env) (req : AnalysisRequest) (rid : Nat)
    (hbuf : bufferEmpty req.imageBuffer = false)
    (hsym : TRADING_PAIRS.contains req.symbol = false) :
    analyzeTradingChart env req rid =
      { payload := .fallback (getFallbackAnalysis req.symbol req.timeframe req.tradeType
          (some ("Invalid symbol: " ++ req.symbol)) rid env.timestamp)
        metadata := none } := by
  have hmem : req.symbol ∉ TRADING_PAIRS := fun hm =>
    Bool.noConfusion ((List.elem_eq_true_of_mem hm).symm.trans hsym)
  simp [analyzeTradingChart, hbuf, hmem]

theorem analyzeTradingChart_ai_error (env : Env) (req : AnalysisRequest) (rid : Nat) (e : String)
    (hbuf : bufferEmpty req.imageBuffer = false)
    (hsym : TRADING_PAIRS.contains req.symbol = true)
    (hai : env.aiPost (promptInputFor env req) = .error e) :
    analyzeTradingChart env req rid =
      { payload := .fallback (getFallbackAnalysis req.symbol req.timeframe req.tradeType
          (some ("AI service error: " ++ e)) rid env.timestamp)
        metadata := none } := by
  have hmem : req.symbol ∈ TRADING_PAIRS := List.mem_of_elem_eq_true hsym
  have hA := analyzeWithAI_error env
    (extractChartDataWithOCR env.ocr (preprocessImage env.sharp (req.imageBuffer.getD []))).1
    req.symbol req.timeframe req.tradeType req.extraNotes rid e hai
  simp [analyzeTradingChart, hbuf, hmem, hA]

theorem analyzeTradingChart_ai_ok (env : Env) (req : AnalysisRequest) (rid : Nat)
    (resp : ApiResponse)
    (hbuf : bufferEmpty req.imageBuffer = false)
    (hsym : TRADING_PAIRS.contains req.symbol = true)
    (hai : env.aiPost (promptInputFor env req) = .ok resp) :
    analyzeTradingChart env req rid =
      { payload := parseAIResponse env.jsonParse resp rid env.timestamp
        metadata := some (mkMetadata env req rid) } := by
  have hmem : req.symbol ∈ TRADING_PAIRS := List.mem_of_elem_eq_true hsym
  have hA := analyzeWithAI_ok env
    (extractChartDataWithOCR env.ocr (preprocessImage env.sharp (req.imageBuffer.getD []))).1
    req.symbol req.timeframe req.tradeType req.extraNotes rid resp hai
  simp [analyzeTradingChart, hbuf, hmem, hA]

/-- Every fallback produced inside `parseAIResponse` is the canonical one with
the placeholder trading parameters and a definite causing-error message. -/
theorem parseAIResponse_fallback_shape (P : String → Except String JVal) (resp : ApiResponse)
    (rid : Nat) (ts : String) (f : FallbackAnalysis)
    (h : parseAIResponse P resp rid ts = .fallback f) :
    ∃ m, f = getFallbackAnalysis "Unknown" "Unknown" "Unknown" (some m) rid ts := by
  cases hc : resp.choices.head? with
  | none =>
    simp only [parseAIResponse, hc] at h
    exact ⟨choicesAccessError, by cases h; rfl⟩
  | some choice =>
    simp only [parseAIResponse, hc] at h
    cases hp : P (cleanContent choice.message.content) with
    | error e =>
      rw [hp] at h
      have h2 : AnalysisPayload.fallback
          (getFallbackAnalysis "Unknown" "Unknown" "Unknown" (some e) rid ts) = .fallback f := h
      cases h2
      exact ⟨e, rfl⟩
    | ok parsedData =>
      rw [hp] at h
      have h2 : (if (truthyOpt (getField parsedData "decision") &&
            truthyOpt (getField parsedData "vision_summary")) = true then
          AnalysisPayload.parsed (setField (setField parsedData "disclaimer" (.str DISCLAIMER))
            "api_usage" (usageJ (resp.usage.getD
              { prompt_tokens := none, completion_tokens := none, total_tokens := none })))
        else .fallback (getFallbackAnalysis "Unknown" "Unknown" "Unknown"
          (some "Invalid response structure from AI") rid ts)) = .fallback f := h
      cases hb : truthyOpt (getField parsedData "decision") &&
          truthyOpt (getField parsedData "vision_summary") with
      | true =>
        rw [hb, if_pos rfl] at h2
        exact AnalysisPayload.noConfusion h2
      | false =>
        rw [hb, if_neg (fun hff => Bool.noConfusion hff)] at h2
        cases h2
        exact ⟨"Invalid response structure from AI", rfl⟩

/-- The canonical fallback fields, for any definite causing-error message. -/
theorem getFallbackAnalysis_fields (s t tt m : String) (rid : Nat) (ts : String) :
    (getFallbackAnalysis s t tt (some m) rid ts).decision.action = "HOLD" ∧
    (getFallbackAnalysis s t tt (some m) rid ts).decision.probability = "0%" ∧
    (getFallbackAnalysis s t tt (some m) rid ts).risk_assessment.level = "high" ∧
    (getFallbackAnalysis s t tt (some m) rid ts).risk_assessment.recommended_position = "none" ∧
    (getFallbackAnalysis s t tt (some m) rid ts).error.message = m ∧
    (getFallbackAnalysis s t tt (some m) rid ts).error.requestId = rid ∧
    (getFallbackAnalysis s t tt (some m) rid ts).error.timestamp = ts ∧
    (getFallbackAnalysis s t tt (some m) rid ts).decision.reason =
      "Technical analysis failed: " ++ m ++
        ". Please upload a clearer screenshot with visible price levels." :=
  ⟨rfl, rfl, rfl, rfl, rfl, rfl, rfl, rfl⟩

/-! ## Lemmas about JS object updates -/

theorem lookupAssoc_setAssoc_self :
    ∀ (l : List (String × JVal)) (k : String) (v : JVal),
      lookupAssoc (setAssoc l k v) k = some v := by
  intro l k v
  induction l with
  | nil => simp [setAssoc, lookupAssoc]
  | cons p t ih =>
    obtain ⟨k1, v1⟩ := p
    by_cases hk : k1 = k
    · simp [setAssoc, lookupAssoc, hk]
    · simp [setAssoc, lookupAssoc, hk, ih]

theorem lookupAssoc_setAssoc_other :
    ∀ (l : List (String × JVal)) (k k' : String) (v : JVal), k' ≠ k →
      lookupAssoc (setAssoc l k v) k' = lookupAssoc l k' := by
  intro l k k' v hne
  induction l with
  | nil => simp [setAssoc, lookupAssoc, Ne.symm hne]
  | cons p t ih =>
    obtain ⟨k1, v1⟩ := p
    by_cases hk : k1 = k
    · subst hk
      simp [setAssoc, lookupAssoc, Ne.symm hne]
    · simp [setAssoc, lookupAssoc, hk, ih]

theorem setField_obj (fields : List (String × JVal)) (k : String) (v : JVal) :
    setField (.obj fields) k v = .obj (setAssoc fields k v) := rfl

theorem getField_obj (fields : List (String × JVal)) (k : String) :
    getField (.obj fields) k = lookupAssoc fields k := rfl

/-! ## Claim theorems: response validation (C8) -/

/-- **C8 counterexample.** A reply whose parsed document has both top-level
fields present — `decision` is `null`, `vision_summary` an object — is
rejected by the validator (`!parsedData.decision` tests JS falsiness, not
absence), refuting "fails exactly when the top-level field decision or the
top-level vision-summary field is absent". -/
theorem parseAIResponse_rejects_present_null_decision :
    (parseAIResponse cexParse cexResp 1 "t").isFallback = true ∧
    getField cexReplyObj "decision" = some .null ∧
    getField cexReplyObj "vision_summary" = some (.obj []) :=
  ⟨rfl, rfl, rfl⟩

/-- **C8 (amended).** For a reply whose cleaned content parses as a document
`j`: validation succeeds iff both top-level fields `decision` and
`vision_summary` are present **and truthy** (absent, `null`, `false`, `0` and
`""` all fail); on success the returned document is `j` with exactly the fixed
disclaimer and the token-usage accounting written, every other field left
unchanged.  (The code-fence / language-tag stripping is the `cleanContent`
composition in the hypothesis.) -/
theorem parseAIResponse_validation_spec (P : String → Except String JVal) (resp : ApiResponse)
    (rid : Nat) (ts : String) (choice : ChoiceRec) (j : JVal)
    (hc : resp.choices.head? = some choice)
    (hp : P (cleanContent choice.message.content) = .ok j) :
    ((parseAIResponse P resp rid ts).isFallback = false ↔
      (truthyOpt (getField j "decision") = true ∧
        truthyOpt (getField j "vision_summary") = true)) ∧
    (truthyOpt (getField j "decision") = true →
      truthyOpt (getField j "vision_summary") = true →
      parseAIResponse P resp rid ts =
        .parsed (setField (setField j "disclaimer" (.str DISCLAIMER)) "api_usage"
          (usageJ (resp.usage.getD
            { prompt_tokens := none, completion_tokens := none, total_tokens := none }))) ∧
      (∀ k, k ≠ "disclaimer" → k ≠ "api_usage" →
        getField (setField (setField j "disclaimer" (.str DISCLAIMER)) "api_usage"
          (usageJ (resp.usage.getD
            { prompt_tokens := none, completion_tokens := none, total_tokens := none }))) k =
          getField j k) ∧
      getField (setField (setField j "disclaimer" (.str DISCLAIMER)) "api_usage"
        (usageJ (resp.usage.getD
          { prompt_tokens := none, completion_tokens := none, total_tokens := none })))
        "disclaimer" = some (.str DISCLAIMER) ∧
      getField (setField (setField j "disclaimer" (.str DISCLAIMER)) "api_usage"
        (usageJ (resp.usage.getD
          { prompt_tokens := none, completion_tokens := none, total_tokens := none })))
        "api_usage" =
        some (usageJ (resp.usage.getD
          { prompt_tokens := none, completion_tokens := none, total_tokens := none }))) := by
  have hpar : parseAIResponse P resp rid ts =
      (if (truthyOpt (getField j "decision") &&
            truthyOpt (getField j "vision_summary")) = true then
        AnalysisPayload.parsed (setField (setField j "disclaimer" (.str DISCLAIMER)) "api_usage"
          (usageJ (resp.usage.getD
            { prompt_tokens := none, completion_tokens := none, total_tokens := none })))
      else .fallback (getFallbackAnalysis "Unknown" "Unknown" "Unknown"
        (some "Invalid response structure from AI") rid ts)) := by
    simp only [parseAIResponse, hc, hp]
  constructor
  · rw [hpar]
    cases hb : truthyOpt (getField j "decision") && truthyOpt (getField j "vision_summary") with
    | true =>
      rw [if_pos rfl]
      simp only [Bool.and_eq_true] at hb
      exact ⟨fun _ => hb, fun _ => rfl⟩
    | false =>
      rw [if_neg (fun hff => Bool.noConfusion hff)]
      constructor
      · intro habs
        exact Bool.noConfusion habs
      · rintro ⟨h1, h2⟩
        rw [h1, h2] at hb
        exact Bool.noConfusion hb
  · intro h1 h2
    have hb : (truthyOpt (getField j "decision") &&
        truthyOpt (getField j "vision_summary")) = true := by
      simp [h1, h2]
    refine ⟨?_, ?_, ?_, ?_⟩
    · rw [hpar, hb, if_pos rfl]
    · intro k hkd hku
      cases j with
      | obj fields =>
        rw [setField_obj, setField_obj, getField_obj, getField_obj,
          lookupAssoc_setAssoc_other _ _ _ _ hku, lookupAssoc_setAssoc_other _ _ _ _ hkd]
      | null => exact Bool.noConfusion h1
      | undef => exact Bool.noConfusion h1
      | bool b => exact Bool.noConfusion h1
      | num q => exact Bool.noConfusion h1
      | str s => exact Bool.noConfusion h1
      | arr elems => exact Bool.noConfusion h1
    · cases j with
      | obj fields =>
        rw [setField_obj, setField_obj, getField_obj,
          lookupAssoc_setAssoc_other _ _ _ _ (by decide), lookupAssoc_setAssoc_self]
      | null => exact Bool.noConfusion h1
      | undef => exact Bool.noConfusion h1
      | bool b => exact Bool.noConfusion h1
      | num q => exact Bool.noConfusion h1
      | str s => exact Bool.noConfusion h1
      | arr elems => exact Bool.noConfusion h1
    · cases j with
      | obj fields =>
        rw [setField_obj, setField_obj, getField_obj, lookupAssoc_setAssoc_self]
      | null => exact Bool.noConfusion h1
      | undef => exact Bool.noConfusion h1
      | bool b => exact Bool.noConfusion h1
      | num q => exact Bool.noConfusion h1
      | str s => exact Bool.noConfusion h1
      | arr elems => exact Bool.noConfusion h1

/-- Witness for the amended C8: a reply wrapped in a ```json code fence is
de-fenced, parsed, and returned with the disclaimer and usage fields added. -/
theorem parseAIResponse_validation_spec_witness :
    parseAIResponse fencedParse fencedResp 1 "2026-02-03T04:05:06.789Z" =
      .parsed (setField (setField fencedReplyObj "disclaimer" (.str DISCLAIMER)) "api_usage"
        (usageJ (fencedResp.usage.getD
          { prompt_tokens := none, completion_tokens := none, total_tokens := none }))) :=
  ((parseAIResponse_validation_spec fencedParse fencedResp 1 "2026-02-03T04:05:06.789Z"
    { message := { content := "```json payload ```" } } fencedReplyObj rfl (by rfl)).2
    rfl rfl).1

/-! ## Claim theorems: the orchestrator (C1, C9, C10) -/

/-- **C1.** For every failure raised at the AI-invocation stage or absorbed at
the response-validation stage, the orchestrator's output carries the canonical
fallback AnalysisResult: decision `HOLD`, zero probability (`"0%"`), risk
level `"high"`, recommended position `"none"`, a reason embedding the causing
error's message, and a non-null error block with the request identifier and a
timestamp. -/
theorem analyzeTradingChart_fallback_on_ai_failure (env : Env) (req : AnalysisRequest)
    (rid : Nat)
    (hbuf : bufferEmpty req.imageBuffer = false)
    (hsym : TRADING_PAIRS.contains req.symbol = true)
    (hfail : aiStageFails env req rid) :
    ∃ f : FallbackAnalysis,
      (analyzeTradingChart env req rid).payload = .fallback f ∧
      f.decision.action = "HOLD" ∧
      f.decision.probability = "0%" ∧
      f.risk_assessment.level = "high" ∧
      f.risk_assessment.recommended_position = "none" ∧
      f.decision.reason = "Technical analysis failed: " ++ f.error.message ++
        ". Please upload a clearer screenshot with visible price levels." ∧
      f.error.requestId = rid ∧
      f.error.timestamp = env.timestamp := by
  rcases hfail with ⟨e, he⟩ | ⟨resp, f0, hok, hfb⟩
  · rw [analyzeTradingChart_ai_error env req rid e hbuf hsym he]
    exact ⟨_, rfl, rfl, rfl, rfl, rfl, rfl, rfl, rfl⟩
  · rw [analyzeTradingChart_ai_ok env req rid resp hbuf hsym hok]
    obtain ⟨m, hm⟩ :=
      parseAIResponse_fallback_shape env.jsonParse resp rid env.timestamp f0 hfb
    subst hm
    exact ⟨_, hfb, rfl, rfl, rfl, rfl, rfl, rfl, rfl⟩

/-- Witness for C1: AI transport timeout on a valid request. -/
theorem analyzeTradingChart_fallback_on_ai_failure_witness :
    ∃ f : FallbackAnalysis,
      (analyzeTradingChart envFailAI reqValid 1).payload = .fallback f ∧
      f.decision.action = "HOLD" ∧
      f.decision.probability = "0%" ∧
      f.risk_assessment.level = "high" ∧
      f.risk_assessment.recommended_position = "none" ∧
      f.decision.reason = "Technical analysis failed: " ++ f.error.message ++
        ". Please upload a clearer screenshot with visible price levels." ∧
      f.error.requestId = 1 ∧
      f.error.timestamp = envFailAI.timestamp :=
  analyzeTradingChart_fallback_on_ai_failure envFailAI reqValid 1 rfl (by decide)
    (Or.inl ⟨"timeout of 45000ms exceeded", rfl⟩)

/-- **C9 counterexample.** With valid inputs and a failing AI invocation, the
orchestrator's result has no `metadata` object at all — in particular no
processing-duration annotation (the fallback carries only the error block) —
refuting the claim that every result is annotated with the processing
duration. -/
theorem analyzeTradingChart_no_duration_on_failure :
    (analyzeTradingChart envFailAI reqValid 1).metadata = none ∧
    (analyzeTradingChart envFailAI reqValid 1).payload.isFallback = true :=
  ⟨rfl, rfl⟩

/-- **C9 (amended).** Every result carries the request id and a timestamp: in
the `metadata` block (which also carries the processing duration) when the
`try` block completes — on success and on internally-absorbed validation
failure — and in the fallback's `error` block, with no `metadata` and hence no
processing duration, when the failure reaches the orchestrator's catch. -/
theorem analyzeTradingChart_annotations (env : Env) (req : AnalysisRequest) (rid : Nat) :
    (∃ m, (analyzeTradingChart env req rid).metadata = some m ∧ m.requestId = rid ∧
      m.timestamp = env.timestamp ∧ m.processingTime = Nat.repr env.elapsedMs ++ "ms") ∨
    ((analyzeTradingChart env req rid).metadata = none ∧
      ∃ f, (analyzeTradingChart env req rid).payload = .fallback f ∧
        f.error.requestId = rid ∧ f.error.timestamp = env.timestamp) := by
  cases hbuf : bufferEmpty req.imageBuffer with
  | true =>
    right
    rw [analyzeTradingChart_empty_buffer env req rid hbuf]
    exact ⟨rfl, _, rfl, rfl, rfl⟩
  | false =>
    cases hsym : TRADING_PAIRS.contains req.symbol with
    | false =>
      right
      rw [analyzeTradingChart_invalid_symbol env req rid hbuf hsym]
      exact ⟨rfl, _, rfl, rfl, rfl⟩
    | true =>
      cases hai : env.aiPost (promptInputFor env req) with
      | error e =>
        right
        rw [analyzeTradingChart_ai_error env req rid e hbuf hsym hai]
        exact ⟨rfl, _, rfl, rfl, rfl⟩
      | ok resp =>
        left
        rw [analyzeTradingChart_ai_ok env req rid resp hbuf hsym hai]
        exact ⟨_, rfl, rfl, rfl, rfl⟩

/-- **C10.** A null or empty image buffer, or a symbol outside
`TRADING_PAIRS`, does not raise: the orchestrator's own catch absorbs the
input-validation error and returns the canonical fallback whose error block
carries the validation message. -/
theorem analyzeTradingChart_input_validation_absorbed (env : Env) (req : AnalysisRequest)
    (rid : Nat)
    (h : bufferEmpty req.imageBuffer = true ∨ TRADING_PAIRS.contains req.symbol = false) :
    ∃ f : FallbackAnalysis,
      (analyzeTradingChart env req rid).payload = .fallback f ∧
      (analyzeTradingChart env req rid).metadata = none ∧
      f.decision.action = "HOLD" ∧
      f.error.requestId = rid ∧
      f.error.timestamp = env.timestamp ∧
      ((bufferEmpty req.imageBuffer = true ∧ f.error.message = "Empty image buffer") ∨
        (bufferEmpty req.imageBuffer = false ∧ TRADING_PAIRS.contains req.symbol = false ∧
          f.error.message = "Invalid symbol: " ++ req.symbol)) := by
  cases hbuf : bufferEmpty req.imageBuffer with
  | true =>
    rw [analyzeTradingChart_empty_buffer env req rid hbuf]
    exact ⟨_, rfl, rfl, rfl, rfl, rfl, Or.inl ⟨rfl, rfl⟩⟩
  | false =>
    rcases h with h1 | h2
    · rw [hbuf] at h1
      exact Bool.noConfusion h1
    · rw [analyzeTradingChart_invalid_symbol env req rid hbuf h2]
      exact ⟨_, rfl, rfl, rfl, rfl, rfl, Or.inr ⟨rfl, h2, rfl⟩⟩

/-- Witness for C10: a request with no image buffer. -/
theorem analyzeTradingChart_input_validation_absorbed_witness :
    ∃ f : FallbackAnalysis,
      (analyzeTradingChart envFailAI reqNoImage 2).payload = .fallback f ∧
      (analyzeTradingChart envFailAI reqNoImage 2).metadata = none ∧
      f.decision.action = "HOLD" ∧
      f.error.requestId = 2 ∧
      f.error.timestamp = envFailAI.timestamp ∧
      ((bufferEmpty reqNoImage.imageBuffer = true ∧ f.error.message = "Empty image buffer") ∨
        (bufferEmpty reqNoImage.imageBuffer = false ∧
          TRADING_PAIRS.contains reqNoImage.symbol = false ∧
          f.error.message = "Invalid symbol: " ++ reqNoImage.symbol)) :=
  analyzeTradingChart_input_validation_absorbed envFailAI reqNoImage 2 (Or.inl rfl)
